import Mathlib

/-!
Shallow embedding of the Crashlytics → Microsoft Teams notification adapter.

The repository has two JavaScript source files:
  * `crashlytics_velocity_alert_teams.js` — a standalone velocity-alert handler
    that builds the Teams adaptive-card message inline and POSTs it;
  * a second file (the refactored version) with two handlers
    (`sendVelocityAlertToTeams`, `sendNonFatalIssueToTeams`) sharing the
    helpers `buildTeamsCard` and `sendToTeams`.

Modelling conventions:
  * Possibly-undefined JS values are `Option` values; JS truthiness is made
    explicit (`none` and `some ""` are falsy strings; `none` and `some 0`
    are falsy numbers).
  * JS numbers in the payload (`crashCount`, `crashPercentage`, the
    `createTime` timestamp) are modelled as integers; `String(n)` and
    template-literal interpolation of an integer agree with `Int` printing.
  * `new Date(t).toLocaleString()` is a platform builtin, not repository
    code: it is modelled as an explicit formatter parameter
    `fmt : Int → String`, and the current wall clock `new Date()` as an
    explicit `now : Int`, so `new Date().toLocaleString()` is `fmt now`.
  * `axios.post` resolves exactly on a 2xx status (its default
    `validateStatus`) and otherwise rejects with an error carrying the
    response when one was received; the delivery helpers take the network
    outcome as an explicit argument and return the issued requests, the
    log lines and the result (`Except` models throwing).
-/

namespace Automations

/-- One `{ title, value }` entry of an adaptive-card `FactSet`. -/
structure Fact where
  title : String
  value : String
deriving DecidableEq, Repr

/-- An adaptive-card `TextBlock`; optional wire fields absent in a given
block are `none`. Field order: text, weight, size, color, spacing,
isSubtle, wrap. -/
structure TextBlock where
  text : String
  weight : Option String
  size : Option String
  color : Option String
  spacing : Option String
  isSubtle : Option Bool
  wrap : Option Bool
deriving DecidableEq, Repr

/-- A `Column` of a `ColumnSet` (the `type: "Column"` tag is implicit). -/
structure Column where
  width : String
  items : List TextBlock
deriving DecidableEq, Repr

/-- A block of the card body: the three block shapes the sources emit. -/
inductive BodyBlock where
  | columnSet (separator : Option Bool) (spacing : Option String) (columns : List Column)
  | textBlock (tb : TextBlock)
  | factSet (facts : List Fact)
deriving DecidableEq, Repr

/-- An entry of `content.actions`. -/
structure CardAction where
  type : String
  title : String
  url : String
  style : Option String
deriving DecidableEq, Repr

/-- The `content` of the single attachment. -/
structure CardContent where
  schema : String
  type : String
  version : String
  body : List BodyBlock
  actions : List CardAction
deriving DecidableEq, Repr

/-- One entry of the top-level `attachments` list. -/
structure Attachment where
  contentType : String
  content : CardContent
deriving DecidableEq, Repr

/-- The full Teams message document. -/
structure TeamsMessage where
  type : String
  attachments : List Attachment
deriving DecidableEq, Repr

/-- JS `x || "N/A"` on a possibly-undefined string: the empty string is
falsy, so it also falls through to `"N/A"`. -/
def orNA : Option String → String
  | some s => if s = "" then "N/A" else s
  | none => "N/A"

/-- JS `x ? String(x) : "N/A"` on a possibly-undefined number: `0` is
falsy, so it also falls through to `"N/A"`. -/
def jsNumOrNA : Option Int → String
  | some n => if n = 0 then "N/A" else toString n
  | none => "N/A"

/-- JS `` x ? `${x}%` : "N/A" `` on a possibly-undefined number. -/
def jsPctOrNA : Option Int → String
  | some n => if n = 0 then "N/A" else toString n ++ "%"
  | none => "N/A"

/-- JS template-literal interpolation of a possibly-undefined string
(`undefined` interpolates as the text "undefined"). -/
def interpStr : Option String → String
  | some s => s
  | none => "undefined"

/-- JS truthiness of a possibly-undefined string. -/
def strTruthy : Option String → Bool
  | some s => s ≠ ""
  | none => false

/-- JS `issueTitle || "Unknown issue"`. -/
def orUnknown : Option String → String
  | some s => if s = "" then "Unknown issue" else s
  | none => "Unknown issue"

/-- JS `createTime ? new Date(createTime).toLocaleString() : new Date().toLocaleString()`:
a present nonzero timestamp is formatted, otherwise the current time is. -/
def alertTimeValue (fmt : Int → String) (now : Int) : Option Int → String
  | some t => if t = 0 then fmt now else fmt t
  | none => fmt now

/-- The `issue` object of the alert payload. -/
structure Issue where
  id : Option String
  title : Option String
  subtitle : Option String
  appVersion : Option String
deriving DecidableEq, Repr

/-- Payload of a velocity alert (`event.data.payload`). -/
structure VelocityPayload where
  issue : Issue
  createTime : Option Int
  crashCount : Option Int
  crashPercentage : Option Int
  firstVersion : Option String
deriving DecidableEq, Repr

/-- A velocity-alert event as the handlers read it. -/
structure VelocityEvent where
  appId : Option String
  payload : VelocityPayload
deriving DecidableEq, Repr

/-- Payload of a new-non-fatal-issue alert. -/
structure NonFatalPayload where
  issue : Issue
  createTime : Option Int
deriving DecidableEq, Repr

/-- A new-non-fatal-issue event as the handler reads it. -/
structure NonFatalEvent where
  appId : Option String
  payload : NonFatalPayload
deriving DecidableEq, Repr

/-- The deep link both handlers build:
`` `https://console.firebase.google.com/project/_/crashlytics/app/${appId}/issues/${issue.id}` ``. -/
def firebaseConsoleLink (appId issueId : Option String) : String :=
  "https://console.firebase.google.com/project/_/crashlytics/app/"
    ++ interpStr appId ++ "/issues/" ++ interpStr issueId

/-- The destructured argument object of `buildTeamsCard`. -/
structure CardArgs where
  emoji : String
  title : String
  subtitle : String
  issueTitle : Option String
  issueSubtitle : Option String
  facts : List Fact
  consoleLink : String
  accentColor : String
deriving DecidableEq, Repr

/-- `buildTeamsCard` of the refactored file: the shared adaptive-card
builder, transcribed block for block. -/
def buildTeamsCard (a : CardArgs) : TeamsMessage :=
  { type := "message"
    attachments := [
      { contentType := "application/vnd.microsoft.card.adaptive"
        content :=
          { schema := "http://adaptivecards.io/schemas/adaptive-card.json"
            type := "AdaptiveCard"
            version := "1.4"
            body :=
              [ -- Header
                BodyBlock.columnSet none none
                  [ { width := "auto"
                      items := [⟨a.emoji, none, some "ExtraLarge", none, none, none, none⟩] },
                    { width := "stretch"
                      items :=
                        [ ⟨a.title, some "Bolder", some "Large", some a.accentColor, none, none, none⟩,
                          ⟨a.subtitle, none, none, none, some "None", some true, none⟩ ] } ],
                -- Issue Title
                BodyBlock.textBlock
                  ⟨orUnknown a.issueTitle, some "Bolder", some "Medium", none, some "Medium", none, some true⟩ ]
              ++
              -- Issue Subtitle (optional): `...(issueSubtitle ? [block] : [])`
              (match a.issueSubtitle with
                | some s =>
                    if s = "" then []
                    else [BodyBlock.textBlock ⟨s, none, none, none, some "None", some true, some true⟩]
                | none => [])
              ++
              [ -- Separator
                BodyBlock.columnSet (some true) (some "Medium") [],
                -- Facts
                BodyBlock.factSet a.facts ]
            actions :=
              [ { type := "Action.OpenUrl"
                  title := "🔍 View in Firebase Console"
                  url := a.consoleLink
                  style := none } ] } } ] }

/-- The seven facts of the refactored velocity handler, in source order. -/
def velocityFacts (fmt : Int → String) (now : Int) (e : VelocityEvent) : List Fact :=
  [ ⟨"💥 Crash Count", jsNumOrNA e.payload.crashCount⟩,
    ⟨"📊 Sessions Affected", jsPctOrNA e.payload.crashPercentage⟩,
    ⟨"📱 App Version", orNA e.payload.issue.appVersion⟩,
    ⟨"🏷️ First Seen In", orNA e.payload.firstVersion⟩,
    ⟨"🆔 Issue ID", orNA e.payload.issue.id⟩,
    ⟨"📦 App ID", orNA e.appId⟩,
    ⟨"🕐 Alert Time", alertTimeValue fmt now e.payload.createTime⟩ ]

/-- The message the refactored velocity handler (`sendVelocityAlertToTeams`
of the shared-helpers file) builds and passes to `sendToTeams`. -/
def sendVelocityAlertToTeamsMsg (fmt : Int → String) (now : Int) (e : VelocityEvent) : TeamsMessage :=
  buildTeamsCard
    { emoji := "🔥"
      title := "Crashlytics Velocity Alert"
      subtitle := "A crash issue is rapidly impacting users"
      issueTitle := e.payload.issue.title
      issueSubtitle := e.payload.issue.subtitle
      facts := velocityFacts fmt now e
      consoleLink := firebaseConsoleLink e.appId e.payload.issue.id
      accentColor := "Attention" }

/-- The four facts of the non-fatal-issue handler, in source order. -/
def nonFatalFacts (fmt : Int → String) (now : Int) (e : NonFatalEvent) : List Fact :=
  [ ⟨"🆔 Issue ID", orNA e.payload.issue.id⟩,
    ⟨"📱 App Version", orNA e.payload.issue.appVersion⟩,
    ⟨"📦 App ID", orNA e.appId⟩,
    ⟨"🕐 Detected At", alertTimeValue fmt now e.payload.createTime⟩ ]

/-- The message `sendNonFatalIssueToTeams` builds and passes to `sendToTeams`. -/
def sendNonFatalIssueToTeamsMsg (fmt : Int → String) (now : Int) (e : NonFatalEvent) : TeamsMessage :=
  buildTeamsCard
    { emoji := "⚠️"
      title := "New Non-Fatal Issue Detected"
      subtitle := "Crashlytics found a new non-fatal error in your app"
      issueTitle := e.payload.issue.title
      issueSubtitle := e.payload.issue.subtitle
      facts := nonFatalFacts fmt now e
      consoleLink := firebaseConsoleLink e.appId e.payload.issue.id
      accentColor := "Warning" }

/-- The `teamsMessage` the standalone velocity handler
(`crashlytics_velocity_alert_teams.js`) builds inline, transcribed field
for field; note its action carries `style: "destructive"`. -/
def standaloneVelocityMsg (fmt : Int → String) (now : Int) (e : VelocityEvent) : TeamsMessage :=
  { type := "message"
    attachments := [
      { contentType := "application/vnd.microsoft.card.adaptive"
        content :=
          { schema := "http://adaptivecards.io/schemas/adaptive-card.json"
            type := "AdaptiveCard"
            version := "1.4"
            body :=
              [ BodyBlock.columnSet none none
                  [ { width := "auto"
                      items := [⟨"🔥", none, some "ExtraLarge", none, none, none, none⟩] },
                    { width := "stretch"
                      items :=
                        [ ⟨"Crashlytics Velocity Alert", some "Bolder", some "Large", some "Attention", none, none, none⟩,
                          ⟨"A crash issue is rapidly impacting users", none, none, none, some "None", some true, none⟩ ] } ],
                BodyBlock.textBlock
                  ⟨orUnknown e.payload.issue.title, some "Bolder", some "Medium", none, some "Medium", none, some true⟩ ]
              ++
              (match e.payload.issue.subtitle with
                | some s =>
                    if s = "" then []
                    else [BodyBlock.textBlock ⟨s, none, none, none, some "None", some true, some true⟩]
                | none => [])
              ++
              [ BodyBlock.columnSet (some true) (some "Medium") [],
                BodyBlock.factSet
                  [ ⟨"💥 Crash Count", jsNumOrNA e.payload.crashCount⟩,
                    ⟨"📊 Sessions Affected", jsPctOrNA e.payload.crashPercentage⟩,
                    ⟨"📱 App Version", orNA e.payload.issue.appVersion⟩,
                    ⟨"🏷️ First Seen In", orNA e.payload.firstVersion⟩,
                    ⟨"🆔 Issue ID", orNA e.payload.issue.id⟩,
                    ⟨"📦 App ID", orNA e.appId⟩,
                    ⟨"🕐 Alert Time", alertTimeValue fmt now e.payload.createTime⟩ ] ]
            actions :=
              [ { type := "Action.OpenUrl"
                  title := "🔍 View in Firebase Console"
                  url := firebaseConsoleLink e.appId e.payload.issue.id
                  style := some "destructive" } ] } } ] }

/-- Outcome of the network interaction underneath one `axios.post` call:
either a response arrived (any status) or the transport itself failed. -/
inductive HttpResult where
  | response (status : Nat) (body : String)
  | transportFailure (msg : String)
deriving DecidableEq, Repr

/-- The resolved value of an axios call. -/
structure AxiosResponse where
  status : Nat
  data : String
deriving DecidableEq, Repr

/-- The rejection value of an axios call: `error.response` is present
exactly when a (non-2xx) response was received. -/
structure AxiosError where
  message : String
  response : Option AxiosResponse
deriving DecidableEq, Repr

/-- `axios.post` resolves exactly on a 2xx status (default
`validateStatus`), else rejects with an error carrying the response. -/
def axiosPost : HttpResult → Except AxiosError AxiosResponse
  | .response s b =>
      if 200 ≤ s ∧ s < 300 then .ok ⟨s, b⟩
      else .error ⟨"Request failed with status code " ++ toString s, some ⟨s, b⟩⟩
  | .transportFailure m => .error ⟨m, none⟩

/-- Whether the network outcome is a success-range response. -/
def isSuccess : HttpResult → Bool
  | .response s _ => 200 ≤ s && s < 300
  | .transportFailure _ => false

/-- JS `error.response?.data || error.message` (an empty body is falsy and
falls through to the message). -/
def errorDetail (e : AxiosError) : String :=
  match e.response with
  | some r => if r.data = "" then e.message else r.data
  | none => e.message

/-- One HTTP POST as issued by the delivery code. -/
structure PostRequest where
  url : String
  body : TeamsMessage
  headers : List (String × String)
deriving DecidableEq, Repr

/-- What one run of the delivery code did: the POSTs it issued, the log
lines it wrote, and its result (`Except.error` models a thrown error). -/
structure SendOutcome where
  requests : List PostRequest
  log : List String
  result : Except AxiosError Unit
deriving Repr

/-- `sendToTeams` of the refactored file: one POST, log on success, log
and rethrow on failure. -/
def sendToTeams (webhookUrl : String) (message : TeamsMessage) (net : HttpResult) : SendOutcome :=
  let req : PostRequest := ⟨webhookUrl, message, [("Content-Type", "application/json")]⟩
  match axiosPost net with
  | .ok resp =>
      ⟨[req], ["✅ Teams notification sent. Status: " ++ toString resp.status], .ok ()⟩
  | .error e =>
      ⟨[req], ["❌ Failed to send Teams notification: " ++ errorDetail e], .error e⟩

/-- The inline try/catch delivery of the standalone velocity handler; same
logic as `sendToTeams`, with its own success log text. -/
def standaloneDeliver (webhookUrl : String) (message : TeamsMessage) (net : HttpResult) : SendOutcome :=
  let req : PostRequest := ⟨webhookUrl, message, [("Content-Type", "application/json")]⟩
  match axiosPost net with
  | .ok resp =>
      ⟨[req], ["✅ Teams notification sent successfully. Status: " ++ toString resp.status], .ok ()⟩
  | .error e =>
      ⟨[req], ["❌ Failed to send Teams notification: " ++ errorDetail e], .error e⟩

/-- All body blocks of a message's attachments, in order. -/
def bodyOf (m : TeamsMessage) : List BodyBlock :=
  m.attachments.foldr (fun a acc => a.content.body ++ acc) []

/-- All facts of all `FactSet` blocks of a message, in order. -/
def factsOf (m : TeamsMessage) : List Fact :=
  (bodyOf m).foldr
    (fun b acc =>
      match b with
      | .factSet fs => fs ++ acc
      | _ => acc) []

/-- All actions of a message's attachments, in order. -/
def actionsOf (m : TeamsMessage) : List CardAction :=
  m.attachments.foldr (fun a acc => a.content.actions ++ acc) []

/-- The header `ColumnSet` as `buildTeamsCard` emits it. -/
def headerBlock (emoji title subtitle accentColor : String) : BodyBlock :=
  BodyBlock.columnSet none none
    [ { width := "auto"
        items := [⟨emoji, none, some "ExtraLarge", none, none, none, none⟩] },
      { width := "stretch"
        items :=
          [ ⟨title, some "Bolder", some "Large", some accentColor, none, none, none⟩,
            ⟨subtitle, none, none, none, some "None", some true, none⟩ ] } ]

/-- The issue-title `TextBlock` as `buildTeamsCard` emits it. -/
def issueTitleBlock (issueTitle : Option String) : BodyBlock :=
  BodyBlock.textBlock
    ⟨orUnknown issueTitle, some "Bolder", some "Medium", none, some "Medium", none, some true⟩

/-- The optional issue-subtitle `TextBlock`. -/
def subtitleBlock (s : String) : BodyBlock :=
  BodyBlock.textBlock ⟨s, none, none, none, some "None", some true, some true⟩

/-- The conditional splice `...(issueSubtitle ? [block] : [])`. -/
def subtitleSplice (o : Option String) : List BodyBlock :=
  match o with
  | some s => if s = "" then [] else [subtitleBlock s]
  | none => []

/-- The separator block. -/
def separatorBlock : BodyBlock :=
  BodyBlock.columnSet (some true) (some "Medium") []

/-- Whether a body block is an issue-subtitle block (subtle, wrapped,
no spacing, no weight) — the styling only the subtitle block carries. -/
def isSubtitleBlock : BodyBlock → Bool
  | .textBlock tb =>
      tb.isSubtle == some true && tb.wrap == some true
        && tb.spacing == some "None" && tb.weight == none
  | _ => false

/-- The fact values of the refactored velocity handler's document, in order. -/
def velocityFactValues (fmt : Int → String) (now : Int) (e : VelocityEvent) : List String :=
  (factsOf (sendVelocityAlertToTeamsMsg fmt now e)).map Fact.value

/-- The fact values of the non-fatal handler's document, in order. -/
def nonFatalFactValues (fmt : Int → String) (now : Int) (e : NonFatalEvent) : List String :=
  (factsOf (sendNonFatalIssueToTeamsMsg fmt now e)).map Fact.value

/-- The text of the issue-title block (the second body block). -/
def titleTextOf (m : TeamsMessage) : Option String :=
  match bodyOf m with
  | _ :: BodyBlock.textBlock tb :: _ => some tb.text
  | _ => none

/-- Structural well-formedness of a built document: the envelope is a
single-attachment message, the body has the four mandatory blocks plus at
most the optional subtitle, the issue-title block carries non-empty text,
and there is exactly one action. -/
def wellFormed (m : TeamsMessage) : Bool :=
  m.type == "message"
    && m.attachments.length == 1
    && ((bodyOf m).length == 4 || (bodyOf m).length == 5)
    && (match titleTextOf m with
        | some t => t != ""
        | none => false)
    && (actionsOf m).length == 1

/-- The same message with every action's `style` field removed. -/
def eraseActionStyle (m : TeamsMessage) : TeamsMessage :=
  { m with
    attachments := m.attachments.map (fun att =>
      { att with
        content :=
          { att.content with
            actions := att.content.actions.map (fun act => { act with style := none }) } }) }

/-- A concrete full velocity event (the spec's §8.5 scenario, with the
percentage as an integer). -/
def demoVelocityEvent : VelocityEvent :=
  { appId := some "app1"
    payload :=
      { issue :=
          { id := some "I1", title := some "NPE"
            subtitle := some "at Foo.bar", appVersion := some "2.1.0" }
        createTime := some 1700000000000
        crashCount := some 42
        crashPercentage := some 3
        firstVersion := some "2.0.9" } }

/-- A velocity event whose `crashCount` is present and equal to 0. -/
def zeroCrashEvent : VelocityEvent :=
  { appId := some "app1"
    payload :=
      { issue :=
          { id := some "I1", title := some "NPE"
            subtitle := some "at Foo.bar", appVersion := some "2.1.0" }
        createTime := some 1700000000000
        crashCount := some 0
        crashPercentage := some 3
        firstVersion := some "2.0.9" } }

/-- A velocity event whose `createTime` is present and equal to 0 (the
epoch instant, a falsy JS number). -/
def epochTimeEvent : VelocityEvent :=
  { appId := some "app1"
    payload :=
      { issue :=
          { id := some "I1", title := some "NPE"
            subtitle := some "at Foo.bar", appVersion := some "2.1.0" }
        createTime := some 0
        crashCount := some 42
        crashPercentage := some 3
        firstVersion := some "2.0.9" } }

/-- A velocity event with no `createTime`. -/
def noTimeEvent : VelocityEvent :=
  { appId := some "app1"
    payload :=
      { issue :=
          { id := some "I1", title := some "NPE"
            subtitle := some "at Foo.bar", appVersion := some "2.1.0" }
        createTime := none
        crashCount := some 42
        crashPercentage := some 3
        firstVersion := some "2.0.9" } }

/-- A concrete non-fatal event with no `appVersion` and no `createTime`
(the spec's §8.6 scenario). -/
def demoNonFatalEvent : NonFatalEvent :=
  { appId := some "app1"
    payload :=
      { issue :=
          { id := some "I1", title := some "NPE"
            subtitle := none, appVersion := none }
        createTime := none } }

/-- Concrete builder arguments for witnesses. -/
def demoArgs : CardArgs :=
  { emoji := "🔥"
    title := "Crashlytics Velocity Alert"
    subtitle := "A crash issue is rapidly impacting users"
    issueTitle := some "NPE"
    issueSubtitle := some "at Foo.bar"
    facts := [⟨"🆔 Issue ID", "I1"⟩]
    consoleLink := "https://console.firebase.google.com/project/_/crashlytics/app/app1/issues/I1"
    accentColor := "Attention" }

/-- Concrete builder arguments with no issue title. -/
def untitledArgs : CardArgs :=
  { emoji := "⚠️"
    title := "New Non-Fatal Issue Detected"
    subtitle := "Crashlytics found a new non-fatal error in your app"
    issueTitle := none
    issueSubtitle := none
    facts := [⟨"🆔 Issue ID", "I1"⟩]
    consoleLink := "https://console.firebase.google.com/project/_/crashlytics/app/app1/issues/I1"
    accentColor := "Warning" }

/-- A concrete document for delivery witnesses. -/
def demoMsg : TeamsMessage :=
  buildTeamsCard demoArgs

theorem buildTeamsCard_body (a : CardArgs) :
    bodyOf (buildTeamsCard a)
      = [headerBlock a.emoji a.title a.subtitle a.accentColor, issueTitleBlock a.issueTitle]
          ++ subtitleSplice a.issueSubtitle
          ++ [separatorBlock, BodyBlock.factSet a.facts] := by
  simp [bodyOf, buildTeamsCard, headerBlock, issueTitleBlock, subtitleSplice, subtitleBlock,
    separatorBlock]

theorem buildTeamsCard_facts (a : CardArgs) :
    factsOf (buildTeamsCard a) = a.facts := by
  rw [factsOf, buildTeamsCard_body]
  rcases a.issueSubtitle with _ | s
  · simp [subtitleSplice, headerBlock, issueTitleBlock, separatorBlock]
  · by_cases hs : s = "" <;>
      simp [subtitleSplice, hs, subtitleBlock, headerBlock, issueTitleBlock, separatorBlock]

theorem buildTeamsCard_actions (a : CardArgs) :
    actionsOf (buildTeamsCard a)
      = [⟨"Action.OpenUrl", "🔍 View in Firebase Console", a.consoleLink, none⟩] := by
  simp [actionsOf, buildTeamsCard]

theorem standalone_body (fmt : Int → String) (now : Int) (e : VelocityEvent) :
    bodyOf (standaloneVelocityMsg fmt now e)
      = [headerBlock "🔥" "Crashlytics Velocity Alert"
            "A crash issue is rapidly impacting users" "Attention",
         issueTitleBlock e.payload.issue.title]
          ++ subtitleSplice e.payload.issue.subtitle
          ++ [separatorBlock,
              BodyBlock.factSet (velocityFacts fmt now e)] := by
  simp [bodyOf, standaloneVelocityMsg, headerBlock, issueTitleBlock, subtitleSplice,
    subtitleBlock, separatorBlock, velocityFacts]

theorem standalone_facts (fmt : Int → String) (now : Int) (e : VelocityEvent) :
    factsOf (standaloneVelocityMsg fmt now e) = velocityFacts fmt now e := by
  rw [factsOf, standalone_body]
  rcases e.payload.issue.subtitle with _ | s
  · simp [subtitleSplice, headerBlock, issueTitleBlock, separatorBlock]
  · by_cases hs : s = "" <;>
      simp [subtitleSplice, hs, subtitleBlock, headerBlock, issueTitleBlock, separatorBlock]

theorem standalone_actions (fmt : Int → String) (now : Int) (e : VelocityEvent) :
    actionsOf (standaloneVelocityMsg fmt now e)
      = [⟨"Action.OpenUrl", "🔍 View in Firebase Console",
          firebaseConsoleLink e.appId e.payload.issue.id, some "destructive"⟩] := by
  simp [actionsOf, standaloneVelocityMsg]

theorem velocityFactValues_eq (fmt : Int → String) (now : Int) (e : VelocityEvent) :
    velocityFactValues fmt now e
      = [jsNumOrNA e.payload.crashCount, jsPctOrNA e.payload.crashPercentage,
         orNA e.payload.issue.appVersion, orNA e.payload.firstVersion,
         orNA e.payload.issue.id, orNA e.appId,
         alertTimeValue fmt now e.payload.createTime] := by
  simp [velocityFactValues, sendVelocityAlertToTeamsMsg, buildTeamsCard_facts, velocityFacts]

theorem nonFatalFactValues_eq (fmt : Int → String) (now : Int) (e : NonFatalEvent) :
    nonFatalFactValues fmt now e
      = [orNA e.payload.issue.id, orNA e.payload.issue.appVersion, orNA e.appId,
         alertTimeValue fmt now e.payload.createTime] := by
  simp [nonFatalFactValues, sendNonFatalIssueToTeamsMsg, buildTeamsCard_facts, nonFatalFacts]

/-- C2: the issue-subtitle block appears in the built document's body
exactly when `issueSubtitle` is a non-empty string; when it is empty or
absent the block is omitted entirely, and when present the body is the
five blocks header, issue title, issue subtitle, separator, fact set, in
that order. -/
theorem subtitle_block_iff (a : CardArgs) :
    ((bodyOf (buildTeamsCard a)).any isSubtitleBlock = strTruthy a.issueSubtitle)
    ∧ (∀ s : String, a.issueSubtitle = some s → s ≠ "" →
        bodyOf (buildTeamsCard a)
          = [headerBlock a.emoji a.title a.subtitle a.accentColor,
             issueTitleBlock a.issueTitle, subtitleBlock s, separatorBlock,
             BodyBlock.factSet a.facts])
    ∧ (strTruthy a.issueSubtitle = false →
        bodyOf (buildTeamsCard a)
          = [headerBlock a.emoji a.title a.subtitle a.accentColor,
             issueTitleBlock a.issueTitle, separatorBlock,
             BodyBlock.factSet a.facts]) := by
  rw [buildTeamsCard_body]
  rcases hsub : a.issueSubtitle with _ | s
  · simp [subtitleSplice, strTruthy, isSubtitleBlock, headerBlock, issueTitleBlock,
      separatorBlock, subtitleBlock]
  · by_cases hs : s = "" <;>
      simp [subtitleSplice, hs, strTruthy, isSubtitleBlock, headerBlock, issueTitleBlock,
        separatorBlock, subtitleBlock]

/-- C2 witness: at concrete arguments with subtitle "at Foo.bar" the body
is exactly the five blocks in order. -/
theorem subtitle_block_iff_witness :
    bodyOf (buildTeamsCard demoArgs)
      = [headerBlock "🔥" "Crashlytics Velocity Alert"
           "A crash issue is rapidly impacting users" "Attention",
         issueTitleBlock (some "NPE"), subtitleBlock "at Foo.bar", separatorBlock,
         BodyBlock.factSet [⟨"🆔 Issue ID", "I1"⟩]] :=
  (subtitle_block_iff demoArgs).2.1 "at Foo.bar" rfl (by decide)

/-- C1 counterexample: in `zeroCrashEvent` the source field `crashCount`
is present with numeric value 0, yet the Crash Count fact value is the
string "N/A", not the stringified "0" the claim requires. -/
theorem velocity_fact_zero_cex :
    (velocityFactValues (fun _ => "t") 0 zeroCrashEvent)[0]? = some "N/A"
    ∧ (some "N/A" : Option String) ≠ some (toString (0 : Int)) := by
  constructor
  · rw [velocityFactValues_eq]; rfl
  · decide

/-- C1 amended: every velocity fact value is a string; a source field that
is absent or falsy (numeric 0, empty string) renders as "N/A", and a
truthy present field renders as its stringified form, with "%" suffixed
for the percentage. -/
theorem velocity_fact_values (fmt : Int → String) (now : Int) (e : VelocityEvent) :
    (velocityFactValues fmt now e).length = 7
    ∧ (e.payload.crashCount = none ∨ e.payload.crashCount = some 0 →
        (velocityFactValues fmt now e)[0]? = some "N/A")
    ∧ (∀ n : Int, e.payload.crashCount = some n → n ≠ 0 →
        (velocityFactValues fmt now e)[0]? = some (toString n))
    ∧ (e.payload.crashPercentage = none ∨ e.payload.crashPercentage = some 0 →
        (velocityFactValues fmt now e)[1]? = some "N/A")
    ∧ (∀ n : Int, e.payload.crashPercentage = some n → n ≠ 0 →
        (velocityFactValues fmt now e)[1]? = some (toString n ++ "%"))
    ∧ (e.payload.issue.appVersion = none ∨ e.payload.issue.appVersion = some "" →
        (velocityFactValues fmt now e)[2]? = some "N/A")
    ∧ (∀ s : String, e.payload.issue.appVersion = some s → s ≠ "" →
        (velocityFactValues fmt now e)[2]? = some s)
    ∧ (e.payload.firstVersion = none ∨ e.payload.firstVersion = some "" →
        (velocityFactValues fmt now e)[3]? = some "N/A")
    ∧ (∀ s : String, e.payload.firstVersion = some s → s ≠ "" →
        (velocityFactValues fmt now e)[3]? = some s)
    ∧ (e.payload.issue.id = none ∨ e.payload.issue.id = some "" →
        (velocityFactValues fmt now e)[4]? = some "N/A")
    ∧ (∀ s : String, e.payload.issue.id = some s → s ≠ "" →
        (velocityFactValues fmt now e)[4]? = some s)
    ∧ (e.appId = none ∨ e.appId = some "" →
        (velocityFactValues fmt now e)[5]? = some "N/A")
    ∧ (∀ s : String, e.appId = some s → s ≠ "" →
        (velocityFactValues fmt now e)[5]? = some s) := by
  rw [velocityFactValues_eq]
  refine ⟨rfl, ?_, ?_, ?_, ?_, ?_, ?_, ?_, ?_, ?_, ?_, ?_, ?_⟩
  · rintro (h | h) <;> simp [h, jsNumOrNA]
  · intro n h hn; simp [h, jsNumOrNA, hn]
  · rintro (h | h) <;> simp [h, jsPctOrNA]
  · intro n h hn; simp [h, jsPctOrNA, hn]
  · rintro (h | h) <;> simp [h, orNA]
  · intro s h hs; simp [h, orNA, hs]
  · rintro (h | h) <;> simp [h, orNA]
  · intro s h hs; simp [h, orNA, hs]
  · rintro (h | h) <;> simp [h, orNA]
  · intro s h hs; simp [h, orNA, hs]
  · rintro (h | h) <;> simp [h, orNA]
  · intro s h hs; simp [h, orNA, hs]

/-- C1 amended witness: in the full demo event the present nonzero
crash count 42 renders as "42". -/
theorem velocity_fact_values_witness :
    (velocityFactValues (fun _ => "t") 0 demoVelocityEvent)[0]? = some (toString (42 : Int)) :=
  (velocity_fact_values (fun _ => "t") 0 demoVelocityEvent).2.2.1 42 rfl (by decide)

/-- C3: the fact titles of the built documents are the fixed per-kind
sequences, for every input payload: seven velocity facts and four
non-fatal facts, in source order. -/
theorem fact_titles_fixed (fmt : Int → String) (now : Int)
    (e : VelocityEvent) (f : NonFatalEvent) :
    (factsOf (sendVelocityAlertToTeamsMsg fmt now e)).map Fact.title
        = ["💥 Crash Count", "📊 Sessions Affected", "📱 App Version", "🏷️ First Seen In",
           "🆔 Issue ID", "📦 App ID", "🕐 Alert Time"]
    ∧ (factsOf (standaloneVelocityMsg fmt now e)).map Fact.title
        = ["💥 Crash Count", "📊 Sessions Affected", "📱 App Version", "🏷️ First Seen In",
           "🆔 Issue ID", "📦 App ID", "🕐 Alert Time"]
    ∧ (factsOf (sendNonFatalIssueToTeamsMsg fmt now f)).map Fact.title
        = ["🆔 Issue ID", "📱 App Version", "📦 App ID", "🕐 Detected At"] := by
  refine ⟨?_, ?_, ?_⟩
  · simp [sendVelocityAlertToTeamsMsg, buildTeamsCard_facts, velocityFacts]
  · simp [standalone_facts, velocityFacts]
  · simp [sendNonFatalIssueToTeamsMsg, buildTeamsCard_facts, nonFatalFacts]

/-- C4: with both identifiers present, the console deep link of each
handler is the plain concatenation of the fixed prefix, the application
id, "/issues/" and the issue id, with no further transformation, and it
is the url of the single `Action.OpenUrl` action of the built document. -/
theorem console_link_plain (fmt : Int → String) (now : Int)
    (e : VelocityEvent) (f : NonFatalEvent) (a i b j : String)
    (h1 : e.appId = some a) (h2 : e.payload.issue.id = some i)
    (h3 : f.appId = some b) (h4 : f.payload.issue.id = some j) :
    firebaseConsoleLink e.appId e.payload.issue.id
        = "https://console.firebase.google.com/project/_/crashlytics/app/"
            ++ a ++ "/issues/" ++ i
    ∧ actionsOf (sendVelocityAlertToTeamsMsg fmt now e)
        = [⟨"Action.OpenUrl", "🔍 View in Firebase Console",
            firebaseConsoleLink e.appId e.payload.issue.id, none⟩]
    ∧ actionsOf (standaloneVelocityMsg fmt now e)
        = [⟨"Action.OpenUrl", "🔍 View in Firebase Console",
            firebaseConsoleLink e.appId e.payload.issue.id, some "destructive"⟩]
    ∧ firebaseConsoleLink f.appId f.payload.issue.id
        = "https://console.firebase.google.com/project/_/crashlytics/app/"
            ++ b ++ "/issues/" ++ j
    ∧ actionsOf (sendNonFatalIssueToTeamsMsg fmt now f)
        = [⟨"Action.OpenUrl", "🔍 View in Firebase Console",
            firebaseConsoleLink f.appId f.payload.issue.id, none⟩] := by
  refine ⟨?_, ?_, ?_, ?_, ?_⟩
  · simp [firebaseConsoleLink, interpStr, h1, h2]
  · simp [sendVelocityAlertToTeamsMsg, buildTeamsCard_actions]
  · exact standalone_actions fmt now e
  · simp [firebaseConsoleLink, interpStr, h3, h4]
  · simp [sendNonFatalIssueToTeamsMsg, buildTeamsCard_actions]

/-- C4 witness: the demo events give exactly the expected concrete link. -/
theorem console_link_plain_witness :
    firebaseConsoleLink demoVelocityEvent.appId demoVelocityEvent.payload.issue.id
      = "https://console.firebase.google.com/project/_/crashlytics/app/"
          ++ "app1" ++ "/issues/" ++ "I1" :=
  (console_link_plain (fun _ => "t") 0 demoVelocityEvent demoNonFatalEvent
    "app1" "I1" "app1" "I1" rfl rfl rfl rfl).1

/-- C6 counterexample: in `epochTimeEvent` the payload's `createTime` is
present with value 0, yet the Alert Time fact is the formatting of the
current time (here 5, rendering "5"), not the formatting of timestamp 0. -/
theorem alert_time_epoch_cex :
    (velocityFactValues (fun t : Int => toString t) 5 epochTimeEvent)[6]? = some "5"
    ∧ ("5" : String) ≠ toString (0 : Int) := by
  constructor
  · rw [velocityFactValues_eq]; rfl
  · decide

/-- C6 amended: the Alert Time / Detected At fact is the formatter applied
to the payload timestamp when `createTime` is present and nonzero, and the
formatter applied to the current time when `createTime` is absent or zero;
in the fallback case the value is non-empty and differs from "N/A"
whenever the formatter only produces such strings. -/
theorem alert_time_value (fmt : Int → String) (now : Int)
    (e : VelocityEvent) (f : NonFatalEvent)
    (hfmt : ∀ t : Int, fmt t ≠ "" ∧ fmt t ≠ "N/A") :
    (velocityFactValues fmt now e)[6]?
        = some (alertTimeValue fmt now e.payload.createTime)
    ∧ (nonFatalFactValues fmt now f)[3]?
        = some (alertTimeValue fmt now f.payload.createTime)
    ∧ (∀ t : Int, e.payload.createTime = some t → t ≠ 0 →
        alertTimeValue fmt now e.payload.createTime = fmt t)
    ∧ (e.payload.createTime = none ∨ e.payload.createTime = some 0 →
        alertTimeValue fmt now e.payload.createTime = fmt now
          ∧ alertTimeValue fmt now e.payload.createTime ≠ ""
          ∧ alertTimeValue fmt now e.payload.createTime ≠ "N/A")
    ∧ (f.payload.createTime = none ∨ f.payload.createTime = some 0 →
        alertTimeValue fmt now f.payload.createTime = fmt now
          ∧ alertTimeValue fmt now f.payload.createTime ≠ ""
          ∧ alertTimeValue fmt now f.payload.createTime ≠ "N/A") := by
  refine ⟨?_, ?_, ?_, ?_, ?_⟩
  · rw [velocityFactValues_eq]; rfl
  · rw [nonFatalFactValues_eq]; rfl
  · intro t h ht; simp [h, alertTimeValue, ht]
  · rintro (h | h) <;> simp [h, alertTimeValue, hfmt now]
  · rintro (h | h) <;> simp [h, alertTimeValue, hfmt now]

/-- C6 amended witness: with no `createTime` in the demo non-fatal event
the Detected At value is the formatted current time, not "N/A". -/
theorem alert_time_value_witness :
    alertTimeValue (fun _ => "1/1/2026, 12:00:00 AM") 0 demoNonFatalEvent.payload.createTime
        = (fun _ : Int => "1/1/2026, 12:00:00 AM") 0
    ∧ alertTimeValue (fun _ => "1/1/2026, 12:00:00 AM") 0 demoNonFatalEvent.payload.createTime
        ≠ "N/A" := by
  have h1 : ("1/1/2026, 12:00:00 AM" : String) ≠ "" := by decide
  have h2 : ("1/1/2026, 12:00:00 AM" : String) ≠ "N/A" := by decide
  have h := (alert_time_value (fun _ => "1/1/2026, 12:00:00 AM") 0 noTimeEvent demoNonFatalEvent
    (fun _ => ⟨h1, h2⟩)).2.2.2.2 (Or.inl rfl)
  exact ⟨h.1, h.2.2⟩

/-- C5: the delivery code (shared `sendToTeams` and the standalone inline
try/catch) returns normally exactly when the POST yields a success-range
response; on failure it logs the response body when available (else the
error message) and rethrows the very error axios raised, and on success it
logs the numeric status. -/
theorem send_to_teams_result (u : String) (m : TeamsMessage) (net : HttpResult) :
    ((sendToTeams u m net).result = .ok () ↔ isSuccess net = true)
    ∧ ((standaloneDeliver u m net).result = .ok () ↔ isSuccess net = true)
    ∧ (∀ e : AxiosError, axiosPost net = .error e →
        (sendToTeams u m net).result = Except.error e
          ∧ (standaloneDeliver u m net).result = Except.error e
          ∧ (sendToTeams u m net).log
              = ["❌ Failed to send Teams notification: " ++ errorDetail e]
          ∧ (standaloneDeliver u m net).log
              = ["❌ Failed to send Teams notification: " ++ errorDetail e])
    ∧ (∀ r : AxiosResponse, axiosPost net = .ok r →
        (sendToTeams u m net).log
            = ["✅ Teams notification sent. Status: " ++ toString r.status]
          ∧ (standaloneDeliver u m net).log
            = ["✅ Teams notification sent successfully. Status: " ++ toString r.status]) := by
  rcases net with ⟨s, b⟩ | msg
  · by_cases h : 200 ≤ s ∧ s < 300
    · refine ⟨?_, ?_, ?_, ?_⟩ <;>
        simp [sendToTeams, standaloneDeliver, axiosPost, isSuccess, h]
    · refine ⟨?_, ?_, ?_, ?_⟩ <;>
        simp [sendToTeams, standaloneDeliver, axiosPost, isSuccess, h]
  · refine ⟨?_, ?_, ?_, ?_⟩ <;>
      simp [sendToTeams, standaloneDeliver, axiosPost, isSuccess]

/-- C5 witness: a 500 response makes `sendToTeams` rethrow the axios
error (the invocation fails), with the response body logged. -/
theorem send_to_teams_result_witness :
    (sendToTeams "https://example.test/webhook" demoMsg (.response 500 "server error")).result
      = Except.error ⟨"Request failed with status code 500", some ⟨500, "server error"⟩⟩ :=
  ((send_to_teams_result "https://example.test/webhook" demoMsg
      (.response 500 "server error")).2.2.1
    ⟨"Request failed with status code 500", some ⟨500, "server error"⟩⟩ rfl).1

theorem orUnknown_ne_empty (o : Option String) : orUnknown o ≠ "" := by
  rcases o with _ | s
  · simp [orUnknown]
  · by_cases hs : s = "" <;> simp [orUnknown, hs]

theorem buildTeamsCard_titleText (a : CardArgs) :
    titleTextOf (buildTeamsCard a) = some (orUnknown a.issueTitle) := by
  unfold titleTextOf
  rw [buildTeamsCard_body]
  simp [headerBlock, issueTitleBlock]

/-- C7: every built document has the fixed wire envelope — top-level type
"message", a single adaptive-card attachment whose content has type
"AdaptiveCard" and version "1.4" — and the delivery code issues exactly
one POST of the document with a Content-Type: application/json header. -/
theorem wire_envelope_fixed (a : CardArgs) (u : String) (m : TeamsMessage) (net : HttpResult) :
    (buildTeamsCard a).type = "message"
    ∧ (buildTeamsCard a).attachments.map Attachment.contentType
        = ["application/vnd.microsoft.card.adaptive"]
    ∧ (buildTeamsCard a).attachments.map (fun att => att.content.type)
        = ["AdaptiveCard"]
    ∧ (buildTeamsCard a).attachments.map (fun att => att.content.version)
        = ["1.4"]
    ∧ (sendToTeams u m net).requests
        = [⟨u, m, [("Content-Type", "application/json")]⟩]
    ∧ (standaloneDeliver u m net).requests
        = [⟨u, m, [("Content-Type", "application/json")]⟩] := by
  refine ⟨rfl, rfl, rfl, rfl, ?_, ?_⟩ <;>
    rcases h : axiosPost net with r | e <;>
      simp [sendToTeams, standaloneDeliver, h]

/-- C8: the card builder is total — every combination of arguments yields
a well-formed document; an absent (or empty) issueTitle renders as the
literal "Unknown issue", and the title block's text is never empty. -/
theorem build_total_wellformed (a : CardArgs) :
    wellFormed (buildTeamsCard a) = true
    ∧ (a.issueTitle = none → titleTextOf (buildTeamsCard a) = some "Unknown issue")
    ∧ (∀ s : String, a.issueTitle = some s → s ≠ "" →
        titleTextOf (buildTeamsCard a) = some s)
    ∧ titleTextOf (buildTeamsCard a) ≠ some "" := by
  have hb := buildTeamsCard_body a
  have ht := buildTeamsCard_titleText a
  refine ⟨?_, ?_, ?_, ?_⟩
  · unfold wellFormed
    rw [hb, ht]
    rcases a.issueSubtitle with _ | s
    · simp [buildTeamsCard, actionsOf, subtitleSplice, bne_iff_ne, orUnknown_ne_empty]
    · by_cases hs : s = "" <;>
        simp [buildTeamsCard, actionsOf, subtitleSplice, hs, bne_iff_ne, orUnknown_ne_empty]
  · intro h; rw [ht]; simp [orUnknown, h]
  · intro s h hs; rw [ht]; simp [orUnknown, h, hs]
  · rw [ht]; simpa using orUnknown_ne_empty a.issueTitle

/-- C8 witness: arguments with no issue title produce a document whose
title block reads "Unknown issue". -/
theorem build_total_wellformed_witness :
    titleTextOf (buildTeamsCard untitledArgs) = some "Unknown issue" :=
  (build_total_wellformed untitledArgs).2.1 rfl

/-- C9 counterexample: at the concrete demo velocity event, the document
the standalone handler builds inline differs from the one the refactored
handler builds via the shared builder — their action buttons differ. -/
theorem standalone_refactored_cex :
    standaloneVelocityMsg (fun _ => "t") 0 demoVelocityEvent
      ≠ sendVelocityAlertToTeamsMsg (fun _ => "t") 0 demoVelocityEvent := by
  intro h
  have hstyle := congrArg (fun m => (actionsOf m).map CardAction.style) h
  simp [standalone_actions, sendVelocityAlertToTeamsMsg, buildTeamsCard_actions] at hstyle

/-- C9 amended: for every velocity event the two documents agree once the
action's style field is removed, and they differ exactly there — the
standalone inline action carries style "destructive" while the shared
builder's action carries no style. -/
theorem standalone_refactored_agree (fmt : Int → String) (now : Int) (e : VelocityEvent) :
    eraseActionStyle (standaloneVelocityMsg fmt now e)
        = eraseActionStyle (sendVelocityAlertToTeamsMsg fmt now e)
    ∧ (actionsOf (standaloneVelocityMsg fmt now e)).map CardAction.style
        = [some "destructive"]
    ∧ (actionsOf (sendVelocityAlertToTeamsMsg fmt now e)).map CardAction.style
        = [none] := by
  refine ⟨?_, ?_, ?_⟩
  · simp [eraseActionStyle, standaloneVelocityMsg, sendVelocityAlertToTeamsMsg,
      buildTeamsCard, velocityFacts]
  · rw [standalone_actions]; rfl
  · simp [sendVelocityAlertToTeamsMsg, buildTeamsCard_actions]

/-- C10: the card builder is deterministic — equal argument records yield
equal documents; the output depends on nothing but the parameters. -/
theorem build_deterministic (a b : CardArgs) (h : a = b) :
    buildTeamsCard a = buildTeamsCard b := by rw [h]

/-- C10 witness: at the concrete demo arguments. -/
theorem build_deterministic_witness :
    buildTeamsCard demoArgs = buildTeamsCard demoArgs :=
  build_deterministic demoArgs demoArgs rfl

end Automations
